import Mathlib

/-!
Verification of the rule-based SEO content evaluator of the Semji-clone
repository (src/src/App.tsx) and the status codes of its CORS proxy
(src/server.js).  The JavaScript functions are shallowly embedded as
executable Lean definitions: strings are Lean strings (lists of
characters), JavaScript numbers that hold exact ratios are rationals,
and the evaluator is a pure function from the parsed page data and the
keyword to the list of suggestions it pushes, in push order.

Notes on fidelity of the embedding:
* JavaScript string .length counts UTF-16 code units while Lean counts
  characters; the two agree on all strings free of astral-plane
  characters, which covers every input used below.
* The source builds the keyword-count regular expression as
  new RegExp(keyword, 'gi') without escaping.  For keywords that are
  free of regular-expression metacharacters this regex matches exactly
  the case-insensitive, non-overlapping, leftmost occurrences of the
  keyword as a literal, and for the empty keyword it matches once at
  every position (content.length + 1 matches); jsMatchCount below
  implements precisely these two behaviours.  Keywords that contain
  metacharacters change the match semantics (valid patterns) or make
  the RegExp constructor throw (invalid patterns such as "(") and are
  outside the domain of this embedding.
* toLowerCase / the regex i-flag are modelled by Char.toLower on both
  sides, which is exact on ASCII.
-/

/-- One whitespace character in the sense of the JavaScript regex
class backslash-s: ASCII whitespace plus the Unicode space separators,
NBSP, line/paragraph separators and the BOM. -/
def isJsWs (c : Char) : Bool :=
  c = ' ' || c = '\t' || c = '\n' || c = '\x0b' || c = '\x0c' || c = '\r' ||
  c.toNat = 0xA0 || c.toNat = 0x1680 ||
  (0x2000 ≤ c.toNat && c.toNat ≤ 0x200A) ||
  c.toNat = 0x2028 || c.toNat = 0x2029 || c.toNat = 0x202F ||
  c.toNat = 0x205F || c.toNat = 0x3000 || c.toNat = 0xFEFF

/-- Worker for jsSplitWs.  The first argument is `some t` while a token
(reversed in `t`) is being accumulated and `none` while inside a
whitespace run; JavaScript's String.split emits the pending token on
entering a run and emits a final (possibly empty) token at the end of
the string. -/
def splitWsAux : Option (List Char) → List Char → List (List Char)
  | cur, [] => [(cur.getD []).reverse]
  | some t, c :: rest =>
      if isJsWs c then t.reverse :: splitWsAux none rest
      else splitWsAux (some (c :: t)) rest
  | none, c :: rest =>
      if isJsWs c then splitWsAux none rest
      else splitWsAux (some [c]) rest

/-- JavaScript s.split(backslash-s-plus): the tokens between maximal
whitespace runs.  Leading or trailing whitespace contributes an empty
token, and the empty string splits to one empty token. -/
def jsSplitWs (s : List Char) : List (List Char) :=
  splitWsAux (some []) s

/-- The evaluator's word count: content.split(backslash-s-plus).length
(App.tsx line 122). -/
def jsWordCount (s : String) : Nat :=
  (jsSplitWs s.data).length

/-- Number of non-overlapping leftmost occurrences of the non-empty
pattern `p` in a string, scanning left to right as a global JavaScript
regex does.  The fuel argument bounds the scan by the length of the
string; every step consumes at least one character, so fuel equal to
the string length is always enough. -/
def countOccAux (p : List Char) : Nat → List Char → Nat
  | _, [] => 0
  | 0, _ :: _ => 0
  | fuel + 1, c :: rest =>
      if p.isPrefixOf (c :: rest) then
        1 + countOccAux p fuel (List.drop (p.length - 1) rest)
      else
        countOccAux p fuel rest

/-- content.match(regex).length for a global regex built from a
metacharacter-free pattern: non-overlapping leftmost matches, and for
the empty pattern one match at every position (length + 1 in total),
which is what new RegExp('', 'g') produces. -/
def jsMatchCount (s p : List Char) : Nat :=
  if p = [] then s.length + 1 else countOccAux p s.length s

/-- Case-insensitive match count, modelling the i-flag by lowercasing
both strings (App.tsx lines 120-121). -/
def jsMatchCountCI (content kw : String) : Nat :=
  jsMatchCount (content.data.map Char.toLower) (kw.data.map Char.toLower)

/-- Is `p` a contiguous substring of `s`?  JavaScript String.includes;
the empty pattern is a substring of everything. -/
def substrB (p : List Char) : List Char → Bool
  | [] => p.isEmpty
  | c :: rest => p.isPrefixOf (c :: rest) || substrB p rest

/-- text.toLowerCase().includes(pattern.toLowerCase()), as the rules for
keyword-in-title, keyword-in-description and keyword-in-H1 use it. -/
def includesCI (s pat : String) : Bool :=
  substrB (pat.data.map Char.toLower) (s.data.map Char.toLower)

/-- JavaScript String.includes, case sensitive (used by server.js to
inspect error messages). -/
def containsSubstr (s pat : String) : Bool :=
  substrB pat.data s.data

/-- The keyword density the evaluator computes (App.tsx line 123):
(keywordCount / wordCount) * 100, as an exact rational. -/
def densityOf (content kw : String) : ℚ :=
  ((jsMatchCountCI content kw : ℚ) / (jsWordCount content : ℚ)) * 100

/-- number.toFixed(2): the value rounded to two decimal places, ties
toward the larger result, rendered with exactly two digits after the
point.  (The float round-off of the JavaScript double is not modelled;
all values used here are far from ties.) -/
def toFixed2 (q : ℚ) : String :=
  let r : ℚ := q * 100
  let n : Int := Int.fdiv (2 * r.num + (r.den : Int)) (2 * (r.den : Int))
  let sign := if n < 0 then "-" else ""
  let m := n.natAbs
  sign ++ toString (m / 100) ++ "." ++
    (if m % 100 < 10 then "0" else "") ++ toString (m % 100)

/-- The structured page data the extractor hands to the evaluator
(interface ParsedContent, App.tsx lines 32-38).  All fields default to
emptiness, never to a missing value. -/
structure ParsedContent where
  title : String
  metaDescription : String
  h1Tags : List String
  links : List String
  content : String
deriving DecidableEq, Repr

/-- One SEO suggestion as the evaluator pushes it:
{ title, description } (App.tsx line 51). -/
structure Finding where
  title : String
  description : String
deriving DecidableEq, Repr

/-- Rule 1, title length (App.tsx lines 54-59). -/
def rule1 (d : ParsedContent) : List Finding :=
  if d.title.length < 30 ∨ d.title.length > 60 then
    [⟨"Optimize title length",
      "Aim for a title length between 30-60 characters. Current length: " ++
        toString d.title.length⟩]
  else []

/-- Rule 2, keyword in title (App.tsx lines 62-67); keyword truthiness
is keyword being non-empty. -/
def rule2 (d : ParsedContent) (keyword : String) : List Finding :=
  if keyword ≠ "" ∧ ¬ includesCI d.title keyword then
    [⟨"Include focus keyword in title",
      "Ensure your focus keyword \"" ++ keyword ++
        "\" is present in the page title for better SEO."⟩]
  else []

/-- Rule 3, meta description length (App.tsx lines 70-75). -/
def rule3 (d : ParsedContent) : List Finding :=
  if d.metaDescription.length < 120 ∨ d.metaDescription.length > 160 then
    [⟨"Optimize meta description length",
      "Aim for a meta description length between 120-160 characters. Current length: " ++
        toString d.metaDescription.length⟩]
  else []

/-- Rule 4, keyword in meta description (App.tsx lines 78-83). -/
def rule4 (d : ParsedContent) (keyword : String) : List Finding :=
  if keyword ≠ "" ∧ ¬ includesCI d.metaDescription keyword then
    [⟨"Include focus keyword in meta description",
      "Include your focus keyword \"" ++ keyword ++
        "\" in the meta description to improve relevance."⟩]
  else []

/-- Rule 5, H1 tags (App.tsx lines 86-101): an if / else-if / else-if
chain, so at most one branch pushes.  In the last branch the source
reads h1Tags[0], which exists because the count is exactly one there;
headD "" is that access. -/
def rule5 (d : ParsedContent) (keyword : String) : List Finding :=
  if d.h1Tags.length = 0 then
    [⟨"Add an H1 tag",
      "Every page should have a unique H1 tag that accurately describes the page content."⟩]
  else if d.h1Tags.length > 1 then
    [⟨"Use only one H1 tag per page",
      "Multiple H1 tags can confuse search engines. Use only one H1 tag that describes your main topic."⟩]
  else if keyword ≠ "" ∧ ¬ includesCI (d.h1Tags.headD "") keyword then
    [⟨"Include focus keyword in H1 tag",
      "Include your focus keyword \"" ++ keyword ++
        "\" in the H1 tag to emphasize the main topic."⟩]
  else []

/-- Rule 6, link count (App.tsx lines 104-109). -/
def rule6 (d : ParsedContent) : List Finding :=
  if d.links.length < 2 then
    [⟨"Add more internal or external links",
      "Including relevant links helps search engines understand your content and improves user experience."⟩]
  else []

/-- Rule 7, content length in characters (App.tsx lines 112-117). -/
def rule7 (d : ParsedContent) : List Finding :=
  if d.content.length < 300 then
    [⟨"Increase content length",
      "Pages with more content tend to rank better. Aim for at least 300 words of unique, valuable content."⟩]
  else []

/-- Rule 8, keyword density (App.tsx lines 119-135).  The source runs
this block unconditionally: there is no guard on the keyword being
non-empty or on the word count. -/
def rule8 (d : ParsedContent) (keyword : String) : List Finding :=
  let keywordCount := jsMatchCountCI d.content keyword
  let keywordDensity := densityOf d.content keyword
  if keywordDensity < 0.5 then
    [⟨"Increase keyword density",
      "Your focus keyword \"" ++ keyword ++ "\" appears " ++
        toString keywordCount ++ " times (" ++ toFixed2 keywordDensity ++
        "%). Aim for a keyword density between 0.5% and 2.5%."⟩]
  else if keywordDensity > 2.5 then
    [⟨"Decrease keyword density",
      "Your focus keyword \"" ++ keyword ++ "\" appears " ++
        toString keywordCount ++ " times (" ++ toFixed2 keywordDensity ++
        "%). This might be considered keyword stuffing. Aim for a keyword density between 0.5% and 2.5%."⟩]
  else []

/-- The rule evaluator (generateSeoSuggestions, App.tsx lines 50-141):
the suggestions pushed by the eight rule blocks, in source order. -/
def generateSeoSuggestions (d : ParsedContent) (keyword : String) : List Finding :=
  rule1 d ++ rule2 d keyword ++ rule3 d ++ rule4 d keyword ++
    rule5 d keyword ++ rule6 d ++ rule7 d ++ rule8 d keyword

/-- Does the evaluator output contain a finding with the given rule
title?  Rule titles are pairwise distinct, so this identifies the rule
that fired. -/
def hasFinding (out : List Finding) (t : String) : Bool :=
  out.any (fun f => f.title == t)

/-- The completion tracker (handleSuggestionCompletion, App.tsx lines
291-293): checking index i raises the watermark to max(previous, i+1),
unchecking sets it to i.  The index is any integer; the source checks
no bounds. -/
def handleSuggestionCompletion (prev : Int) (isChecked : Bool) (index : Int) : Int :=
  if isChecked then max prev (index + 1) else index

/-- The progress fraction the UI renders
(completedSuggestions / seoSuggestions.length, App.tsx line 349, before
the * 100 of the progress bar). -/
def progressFraction (watermark : Int) (total : Nat) : ℚ :=
  (watermark : ℚ) / (total : ℚ)

/-- Word count as the specification words it: the number of
whitespace-delimited tokens of the body text with empty tokens
excluded.  Stated for comparison with jsWordCount, which is what the
code computes. -/
def specWordCount (s : String) : Nat :=
  ((jsSplitWs s.data).filter (fun t => ¬ t.isEmpty)).length

/-- Keyword density as the specification words it: 100 times the
number of case-insensitive non-overlapping occurrences of the keyword,
divided by specWordCount.  Stated for comparison with densityOf. -/
def specKeywordDensity (body kw : String) : ℚ :=
  ((jsMatchCountCI body kw : ℚ) / (specWordCount body : ℚ)) * 100

/-- s.repeat(n): the string repeated n times. -/
def repeatStr (s : String) (n : Nat) : String :=
  String.join (List.replicate n s)

/-- Outcome of reading and parsing the url query parameter in the
proxy route (server.js lines 321-336): absent (or empty, which is
falsy), rejected by the WHATWG URL parser, or parsed with the given
protocol (scheme plus colon, as URL.protocol renders it). -/
inductive UrlParam where
  | missing
  | unparseable
  | parsed (protocol : String)
deriving DecidableEq, Repr

/-- Outcome of the upstream axios GET (server.js lines 341-392).  With
validateStatus: null every received HTTP response resolves, whatever
its status; a timeout or connection failure rejects with a request but
no response. -/
inductive Upstream where
  | response (status : Nat)
  | noResponse
deriving DecidableEq, Repr

/-- What reaches the catch block of the proxy route: a plain Error
thrown with a message, or an axios rejection carrying a request but no
response. -/
inductive ProxyFailure where
  | thrown (msg : String)
  | noResponseErr
deriving DecidableEq, Repr

/-- The catch block's status computation (server.js lines 405-444):
start from 500; a plain Error whose message contains "Invalid URL" or
"URL parameter is required" gives 400; an axios rejection with no
response overrides to 504 regardless of its message. -/
def proxyCatchStatus : ProxyFailure → Nat
  | .thrown msg =>
      if containsSubstr msg "Invalid URL" || containsSubstr msg "URL parameter is required" then 400
      else 500
  | .noResponseErr => 504

/-- The HTTP status the GET /proxy route responds with (server.js
lines 295-461), as a function of the url parameter outcome and the
upstream outcome.  The try block throws the three fixed messages of
lines 324, 331 and 335; a received upstream response is forwarded with
its own status (line 401). -/
def proxyHandlerStatus (u : UrlParam) (up : Upstream) : Nat :=
  match u with
  | .missing => proxyCatchStatus (.thrown "URL parameter is required")
  | .unparseable => proxyCatchStatus (.thrown "Invalid URL provided")
  | .parsed protocol =>
      if protocol ≠ "http:" ∧ protocol ≠ "https:" then
        proxyCatchStatus (.thrown "Only HTTP and HTTPS protocols are supported")
      else
        match up with
        | .response s => s
        | .noResponse => proxyCatchStatus .noResponseErr

/-! ## Characterizing which rules fire -/

theorem hasFinding_append (a b : List Finding) (t : String) :
    hasFinding (a ++ b) t = (hasFinding a t || hasFinding b t) := by
  simp [hasFinding]

theorem hasFinding_gen (d : ParsedContent) (kw t : String) :
    hasFinding (generateSeoSuggestions d kw) t =
      (hasFinding (rule1 d) t || hasFinding (rule2 d kw) t || hasFinding (rule3 d) t ||
       hasFinding (rule4 d kw) t || hasFinding (rule5 d kw) t || hasFinding (rule6 d) t ||
       hasFinding (rule7 d) t || hasFinding (rule8 d kw) t) := by
  simp [generateSeoSuggestions, hasFinding, Bool.or_assoc]

theorem hasFinding_rule1 (d : ParsedContent) (t : String) :
    hasFinding (rule1 d) t =
      (decide (d.title.length < 30 ∨ d.title.length > 60) && ("Optimize title length" == t)) := by
  unfold rule1 hasFinding
  split <;> simp_all

theorem hasFinding_rule2 (d : ParsedContent) (kw t : String) :
    hasFinding (rule2 d kw) t =
      (decide (kw ≠ "" ∧ ¬ includesCI d.title kw) && ("Include focus keyword in title" == t)) := by
  unfold rule2 hasFinding
  split <;> simp_all

theorem hasFinding_rule3 (d : ParsedContent) (t : String) :
    hasFinding (rule3 d) t =
      (decide (d.metaDescription.length < 120 ∨ d.metaDescription.length > 160) &&
        ("Optimize meta description length" == t)) := by
  unfold rule3 hasFinding
  split <;> simp_all

theorem hasFinding_rule4 (d : ParsedContent) (kw t : String) :
    hasFinding (rule4 d kw) t =
      (decide (kw ≠ "" ∧ ¬ includesCI d.metaDescription kw) &&
        ("Include focus keyword in meta description" == t)) := by
  unfold rule4 hasFinding
  split <;> simp_all

theorem hasFinding_rule5 (d : ParsedContent) (kw t : String) :
    hasFinding (rule5 d kw) t =
      (if d.h1Tags.length = 0 then ("Add an H1 tag" == t)
       else if d.h1Tags.length > 1 then ("Use only one H1 tag per page" == t)
       else (decide (kw ≠ "" ∧ ¬ includesCI (d.h1Tags.headD "") kw) &&
              ("Include focus keyword in H1 tag" == t))) := by
  unfold rule5 hasFinding
  split
  · simp_all
  · split
    · simp_all
    · split <;> simp_all

theorem hasFinding_rule6 (d : ParsedContent) (t : String) :
    hasFinding (rule6 d) t =
      (decide (d.links.length < 2) && ("Add more internal or external links" == t)) := by
  unfold rule6 hasFinding
  split <;> simp_all

theorem hasFinding_rule7 (d : ParsedContent) (t : String) :
    hasFinding (rule7 d) t =
      (decide (d.content.length < 300) && ("Increase content length" == t)) := by
  unfold rule7 hasFinding
  split <;> simp_all

theorem hasFinding_rule8 (d : ParsedContent) (kw t : String) :
    hasFinding (rule8 d kw) t =
      (if densityOf d.content kw < 0.5 then ("Increase keyword density" == t)
       else if densityOf d.content kw > 2.5 then ("Decrease keyword density" == t)
       else false) := by
  simp only [rule8, hasFinding]
  split
  · simp_all
  · split <;> simp_all

theorem gen_fires_titleLength (d : ParsedContent) (kw : String) :
    hasFinding (generateSeoSuggestions d kw) "Optimize title length" =
      decide (d.title.length < 30 ∨ d.title.length > 60) := by
  rw [hasFinding_gen, hasFinding_rule1, hasFinding_rule2, hasFinding_rule3, hasFinding_rule4,
    hasFinding_rule5, hasFinding_rule6, hasFinding_rule7, hasFinding_rule8]
  by_cases h0 : d.h1Tags.length = 0 <;> by_cases h1 : d.h1Tags.length > 1 <;>
    by_cases hd : densityOf d.content kw < 0.5 <;>
    by_cases hd2 : densityOf d.content kw > 2.5 <;> simp [h0, h1, hd, hd2]

theorem gen_fires_kwTitle (d : ParsedContent) (kw : String) :
    hasFinding (generateSeoSuggestions d kw) "Include focus keyword in title" =
      decide (kw ≠ "" ∧ ¬ includesCI d.title kw) := by
  rw [hasFinding_gen, hasFinding_rule1, hasFinding_rule2, hasFinding_rule3, hasFinding_rule4,
    hasFinding_rule5, hasFinding_rule6, hasFinding_rule7, hasFinding_rule8]
  by_cases h0 : d.h1Tags.length = 0 <;> by_cases h1 : d.h1Tags.length > 1 <;>
    by_cases hd : densityOf d.content kw < 0.5 <;>
    by_cases hd2 : densityOf d.content kw > 2.5 <;> simp [h0, h1, hd, hd2]

theorem gen_fires_descLength (d : ParsedContent) (kw : String) :
    hasFinding (generateSeoSuggestions d kw) "Optimize meta description length" =
      decide (d.metaDescription.length < 120 ∨ d.metaDescription.length > 160) := by
  rw [hasFinding_gen, hasFinding_rule1, hasFinding_rule2, hasFinding_rule3, hasFinding_rule4,
    hasFinding_rule5, hasFinding_rule6, hasFinding_rule7, hasFinding_rule8]
  by_cases h0 : d.h1Tags.length = 0 <;> by_cases h1 : d.h1Tags.length > 1 <;>
    by_cases hd : densityOf d.content kw < 0.5 <;>
    by_cases hd2 : densityOf d.content kw > 2.5 <;> simp [h0, h1, hd, hd2]

theorem gen_fires_kwDesc (d : ParsedContent) (kw : String) :
    hasFinding (generateSeoSuggestions d kw) "Include focus keyword in meta description" =
      decide (kw ≠ "" ∧ ¬ includesCI d.metaDescription kw) := by
  rw [hasFinding_gen, hasFinding_rule1, hasFinding_rule2, hasFinding_rule3, hasFinding_rule4,
    hasFinding_rule5, hasFinding_rule6, hasFinding_rule7, hasFinding_rule8]
  by_cases h0 : d.h1Tags.length = 0 <;> by_cases h1 : d.h1Tags.length > 1 <;>
    by_cases hd : densityOf d.content kw < 0.5 <;>
    by_cases hd2 : densityOf d.content kw > 2.5 <;> simp [h0, h1, hd, hd2]

theorem gen_fires_addH1 (d : ParsedContent) (kw : String) :
    hasFinding (generateSeoSuggestions d kw) "Add an H1 tag" =
      decide (d.h1Tags.length = 0) := by
  rw [hasFinding_gen, hasFinding_rule1, hasFinding_rule2, hasFinding_rule3, hasFinding_rule4,
    hasFinding_rule5, hasFinding_rule6, hasFinding_rule7, hasFinding_rule8]
  by_cases h0 : d.h1Tags.length = 0 <;> by_cases h1 : d.h1Tags.length > 1 <;>
    by_cases hd : densityOf d.content kw < 0.5 <;>
    by_cases hd2 : densityOf d.content kw > 2.5 <;> simp [h0, h1, hd, hd2]

theorem gen_fires_oneH1 (d : ParsedContent) (kw : String) :
    hasFinding (generateSeoSuggestions d kw) "Use only one H1 tag per page" =
      decide (d.h1Tags.length > 1) := by
  rw [hasFinding_gen, hasFinding_rule1, hasFinding_rule2, hasFinding_rule3, hasFinding_rule4,
    hasFinding_rule5, hasFinding_rule6, hasFinding_rule7, hasFinding_rule8]
  by_cases h0 : d.h1Tags.length = 0 <;> by_cases h1 : d.h1Tags.length > 1 <;>
    by_cases hd : densityOf d.content kw < 0.5 <;>
    by_cases hd2 : densityOf d.content kw > 2.5 <;> simp [h0, h1, hd, hd2]

theorem gen_fires_kwH1 (d : ParsedContent) (kw : String) :
    hasFinding (generateSeoSuggestions d kw) "Include focus keyword in H1 tag" =
      decide (d.h1Tags.length = 1 ∧ kw ≠ "" ∧ ¬ includesCI (d.h1Tags.headD "") kw) := by
  rw [hasFinding_gen, hasFinding_rule1, hasFinding_rule2, hasFinding_rule3, hasFinding_rule4,
    hasFinding_rule5, hasFinding_rule6, hasFinding_rule7, hasFinding_rule8]
  by_cases h0 : d.h1Tags.length = 0 <;> by_cases h1 : d.h1Tags.length > 1 <;>
    by_cases hd : densityOf d.content kw < 0.5 <;>
    by_cases hd2 : densityOf d.content kw > 2.5 <;>
    simp [h0, h1, hd, hd2] <;> omega

theorem gen_fires_links (d : ParsedContent) (kw : String) :
    hasFinding (generateSeoSuggestions d kw) "Add more internal or external links" =
      decide (d.links.length < 2) := by
  rw [hasFinding_gen, hasFinding_rule1, hasFinding_rule2, hasFinding_rule3, hasFinding_rule4,
    hasFinding_rule5, hasFinding_rule6, hasFinding_rule7, hasFinding_rule8]
  by_cases h0 : d.h1Tags.length = 0 <;> by_cases h1 : d.h1Tags.length > 1 <;>
    by_cases hd : densityOf d.content kw < 0.5 <;>
    by_cases hd2 : densityOf d.content kw > 2.5 <;> simp [h0, h1, hd, hd2]

theorem gen_fires_contentLength (d : ParsedContent) (kw : String) :
    hasFinding (generateSeoSuggestions d kw) "Increase content length" =
      decide (d.content.length < 300) := by
  rw [hasFinding_gen, hasFinding_rule1, hasFinding_rule2, hasFinding_rule3, hasFinding_rule4,
    hasFinding_rule5, hasFinding_rule6, hasFinding_rule7, hasFinding_rule8]
  by_cases h0 : d.h1Tags.length = 0 <;> by_cases h1 : d.h1Tags.length > 1 <;>
    by_cases hd : densityOf d.content kw < 0.5 <;>
    by_cases hd2 : densityOf d.content kw > 2.5 <;> simp [h0, h1, hd, hd2]

theorem gen_fires_incDensity (d : ParsedContent) (kw : String) :
    hasFinding (generateSeoSuggestions d kw) "Increase keyword density" =
      decide (densityOf d.content kw < 0.5) := by
  rw [hasFinding_gen, hasFinding_rule1, hasFinding_rule2, hasFinding_rule3, hasFinding_rule4,
    hasFinding_rule5, hasFinding_rule6, hasFinding_rule7, hasFinding_rule8]
  by_cases h0 : d.h1Tags.length = 0 <;> by_cases h1 : d.h1Tags.length > 1 <;>
    by_cases hd : densityOf d.content kw < 0.5 <;>
    by_cases hd2 : densityOf d.content kw > 2.5 <;> simp [h0, h1, hd, hd2]

theorem gen_fires_decDensity (d : ParsedContent) (kw : String) :
    hasFinding (generateSeoSuggestions d kw) "Decrease keyword density" =
      decide (¬ densityOf d.content kw < 0.5 ∧ densityOf d.content kw > 2.5) := by
  rw [hasFinding_gen, hasFinding_rule1, hasFinding_rule2, hasFinding_rule3, hasFinding_rule4,
    hasFinding_rule5, hasFinding_rule6, hasFinding_rule7, hasFinding_rule8]
  by_cases h0 : d.h1Tags.length = 0 <;> by_cases h1 : d.h1Tags.length > 1 <;>
    by_cases hd : densityOf d.content kw < 0.5 <;>
    by_cases hd2 : densityOf d.content kw > 2.5 <;> simp [h0, h1, hd, hd2]

/-! ## Word count is never zero -/

theorem one_le_splitWsAux_length (s : List Char) :
    ∀ cur : Option (List Char), 1 ≤ (splitWsAux cur s).length := by
  induction s with
  | nil => intro cur; simp [splitWsAux]
  | cons c rest ih =>
    intro cur
    cases cur with
    | none =>
      simp only [splitWsAux]
      split
      · exact ih none
      · exact ih (some [c])
    | some t =>
      simp only [splitWsAux]
      split
      · simp
      · exact ih (some (c :: t))

/-- C9: the word count the evaluator computes is at least 1 for every
body text, because String.split with a separator regex yields at least
one (possibly empty) token; the empty body text yields word count 1,
and the rational denominator of the density is therefore never zero. -/
theorem wordCount_never_zero :
    (∀ s : String, 1 ≤ jsWordCount s) ∧ jsWordCount "" = 1 ∧
      (∀ s : String, (jsWordCount s : ℚ) ≠ 0) := by
  refine ⟨fun s => one_le_splitWsAux_length s.data (some []), by decide, fun s => ?_⟩
  have h := one_le_splitWsAux_length s.data (some [])
  have hne : jsWordCount s ≠ 0 := by
    unfold jsWordCount jsSplitWs
    omega
  exact_mod_cast hne

/-! ## The completion watermark -/

/-- C6: checking index i raises the watermark to max(previous, i+1),
unchecking index i resets it to exactly i; in particular checking
index 2 raises the watermark to 3 and a subsequent uncheck of index 0
leaves it at 0. -/
theorem watermark_check_uncheck_semantics :
    (∀ prev index : Int, handleSuggestionCompletion prev true index = max prev (index + 1)) ∧
    (∀ prev index : Int, handleSuggestionCompletion prev false index = index) ∧
    handleSuggestionCompletion 0 true 2 = 3 ∧
    handleSuggestionCompletion (handleSuggestionCompletion 0 true 2) false 0 = 0 := by
  refine ⟨fun prev index => rfl, fun prev index => rfl, ?_, ?_⟩ <;>
    simp [handleSuggestionCompletion]

/-- C10: the completion handler checks no bounds: the same equations
hold at every integer index, so checking an index past the end of the
finding list drives the watermark beyond the list length and the
progress fraction beyond 1 (watermark 11 over 2 findings). -/
theorem completion_handler_unbounded :
    (∀ prev index : Int,
       handleSuggestionCompletion prev true index = max prev (index + 1) ∧
       handleSuggestionCompletion prev false index = index) ∧
    handleSuggestionCompletion 0 true 10 = 11 ∧
    handleSuggestionCompletion 5 false (-3) = -3 ∧
    progressFraction (handleSuggestionCompletion 0 true 10) 2 = 11 / 2 ∧
    (1 : ℚ) < progressFraction 11 2 := by
  refine ⟨fun prev index => ⟨rfl, rfl⟩, ?_, rfl, ?_, ?_⟩
  · simp [handleSuggestionCompletion]
  · have h : handleSuggestionCompletion 0 true 10 = 11 := by
      simp [handleSuggestionCompletion]
    rw [h]; unfold progressFraction; norm_num
  · unfold progressFraction; norm_num

/-! ## H1 findings are mutually exclusive -/

/-- C7: at most one of the three H1 findings appears: the zero-count,
multiple-count and keyword branches of rule 5 are an if / else-if /
else-if chain, so a document with 0 H1 tags or with 2 or more H1 tags
never yields the keyword-in-H1 finding. -/
theorem h1_findings_mutually_exclusive (d : ParsedContent) (kw : String) :
    (hasFinding (generateSeoSuggestions d kw) "Add an H1 tag" &&
       hasFinding (generateSeoSuggestions d kw) "Use only one H1 tag per page") = false ∧
    (hasFinding (generateSeoSuggestions d kw) "Add an H1 tag" &&
       hasFinding (generateSeoSuggestions d kw) "Include focus keyword in H1 tag") = false ∧
    (hasFinding (generateSeoSuggestions d kw) "Use only one H1 tag per page" &&
       hasFinding (generateSeoSuggestions d kw) "Include focus keyword in H1 tag") = false ∧
    (decide (d.h1Tags.length = 0) &&
       hasFinding (generateSeoSuggestions d kw) "Include focus keyword in H1 tag") = false ∧
    (decide (2 ≤ d.h1Tags.length) &&
       hasFinding (generateSeoSuggestions d kw) "Include focus keyword in H1 tag") = false := by
  simp only [gen_fires_addH1, gen_fires_oneH1, gen_fires_kwH1]
  refine ⟨?_, ?_, ?_, ?_, ?_⟩ <;>
    · by_cases h : d.h1Tags.length = 0 <;> by_cases h1 : d.h1Tags.length = 1 <;>
        simp [h, h1]

/-! ## Behaviour under the empty keyword -/

/-- C2 counterexample: the density rule is not suppressed by an empty
keyword.  On the all-empty document with keyword "" the regex built
from the empty keyword matches once (content.length + 1 = 1 match)
over word count 1, the density is 100, and the decrease-density
finding fires. -/
theorem empty_keyword_density_fires :
    hasFinding (generateSeoSuggestions ⟨"", "", [], [], ""⟩ "") "Decrease keyword density" = true := by
  rw [gen_fires_decDensity]
  have h1 : jsMatchCountCI "" "" = 1 := by decide
  have h2 : jsWordCount "" = 1 := by decide
  have h : densityOf "" "" = 100 := by
    unfold densityOf
    rw [h1, h2]
    norm_num
  show decide (¬ densityOf "" "" < 0.5 ∧ densityOf "" "" > 2.5) = true
  rw [h]
  simp only [decide_eq_true_eq]
  constructor <;> norm_num

/-- C2 amended: an empty keyword suppresses rule 2, rule 4 and the
keyword branch of rule 5, and rules 1, 3, 6, 7 and the count branches
of rule 5 fire exactly by their conditions; rule 8 however is not
suppressed — it fires exactly by the density the code computes for the
empty keyword (whose match count is content.length + 1). -/
theorem empty_keyword_rule_behaviour (d : ParsedContent) :
    hasFinding (generateSeoSuggestions d "") "Include focus keyword in title" = false ∧
    hasFinding (generateSeoSuggestions d "") "Include focus keyword in meta description" = false ∧
    hasFinding (generateSeoSuggestions d "") "Include focus keyword in H1 tag" = false ∧
    hasFinding (generateSeoSuggestions d "") "Optimize title length" =
      decide (d.title.length < 30 ∨ d.title.length > 60) ∧
    hasFinding (generateSeoSuggestions d "") "Optimize meta description length" =
      decide (d.metaDescription.length < 120 ∨ d.metaDescription.length > 160) ∧
    hasFinding (generateSeoSuggestions d "") "Add an H1 tag" = decide (d.h1Tags.length = 0) ∧
    hasFinding (generateSeoSuggestions d "") "Use only one H1 tag per page" =
      decide (d.h1Tags.length > 1) ∧
    hasFinding (generateSeoSuggestions d "") "Add more internal or external links" =
      decide (d.links.length < 2) ∧
    hasFinding (generateSeoSuggestions d "") "Increase content length" =
      decide (d.content.length < 300) ∧
    hasFinding (generateSeoSuggestions d "") "Increase keyword density" =
      decide (densityOf d.content "" < 0.5) ∧
    hasFinding (generateSeoSuggestions d "") "Decrease keyword density" =
      decide (¬ densityOf d.content "" < 0.5 ∧ densityOf d.content "" > 2.5) := by
  refine ⟨?_, ?_, ?_, gen_fires_titleLength d "", gen_fires_descLength d "",
    gen_fires_addH1 d "", gen_fires_oneH1 d "", gen_fires_links d "",
    gen_fires_contentLength d "", gen_fires_incDensity d "", gen_fires_decDensity d ""⟩
  · rw [gen_fires_kwTitle]; simp
  · rw [gen_fires_kwDesc]; simp
  · rw [gen_fires_kwH1]; simp

/-! ## Density semantics -/

/-- C4 counterexample: the density the code computes is not, in
general, 100 times the match count over the count of non-empty
whitespace-delimited tokens.  On body text "a " with keyword "a" the
code divides by 2 (String.split keeps the empty token a trailing
separator produces) and yields 50, while the specified formula divides
by 1 and yields 100. -/
theorem density_formula_counterexample :
    densityOf "a " "a" = 50 ∧ specKeywordDensity "a " "a" = 100 ∧
      densityOf "a " "a" ≠ specKeywordDensity "a " "a" := by
  have h1 : jsMatchCountCI "a " "a" = 1 := by decide
  have h2 : jsWordCount "a " = 2 := by decide
  have h3 : specWordCount "a " = 1 := by decide
  have hc : densityOf "a " "a" = 50 := by
    unfold densityOf; rw [h1, h2]; norm_num
  have hs : specKeywordDensity "a " "a" = 100 := by
    unfold specKeywordDensity; rw [h1, h3]; norm_num
  refine ⟨hc, hs, ?_⟩
  rw [hc, hs]
  norm_num

/-- C4 amended: for a non-empty keyword free of regex metacharacters
the computed density is 100 times the case-insensitive non-overlapping
match count divided by the code's word count — the count of tokens of
String.split on whitespace runs, which keeps the empty tokens produced
by leading or trailing whitespace — and the increase-density finding
fires iff that value is below 0.5 while the decrease-density finding
fires iff it is above 2.5. -/
theorem density_rule_semantics (d : ParsedContent) (kw : String) (_hkw : kw ≠ "") :
    densityOf d.content kw =
      ((jsMatchCountCI d.content kw : ℚ) / (jsWordCount d.content : ℚ)) * 100 ∧
    (hasFinding (generateSeoSuggestions d kw) "Increase keyword density" = true ↔
      densityOf d.content kw < 0.5) ∧
    (hasFinding (generateSeoSuggestions d kw) "Decrease keyword density" = true ↔
      densityOf d.content kw > 2.5) := by
  refine ⟨rfl, ?_, ?_⟩
  · rw [gen_fires_incDensity]; simp
  · rw [gen_fires_decDensity]
    simp only [decide_eq_true_eq]
    constructor
    · rintro ⟨-, h⟩; exact h
    · intro h; exact ⟨by linarith, h⟩

/-- C4 witness: the amended density semantics at a concrete input with
keyword "shoes". -/
theorem density_rule_semantics_witness :
    densityOf "shoes everywhere" "shoes" =
      ((jsMatchCountCI "shoes everywhere" "shoes" : ℚ) /
        (jsWordCount "shoes everywhere" : ℚ)) * 100 ∧
    (hasFinding (generateSeoSuggestions ⟨"", "", [], [], "shoes everywhere"⟩ "shoes")
        "Increase keyword density" = true ↔
      densityOf "shoes everywhere" "shoes" < 0.5) ∧
    (hasFinding (generateSeoSuggestions ⟨"", "", [], [], "shoes everywhere"⟩ "shoes")
        "Decrease keyword density" = true ↔
      densityOf "shoes everywhere" "shoes" > 2.5) :=
  density_rule_semantics ⟨"", "", [], [], "shoes everywhere"⟩ "shoes" (by decide)

/-! ## Evaluating rule 8 at concrete densities -/

theorem rule8_eval_inc (d : ParsedContent) (kw : String)
    (h : densityOf d.content kw < 0.5) :
    rule8 d kw =
      [⟨"Increase keyword density",
        "Your focus keyword \"" ++ kw ++ "\" appears " ++
          toString (jsMatchCountCI d.content kw) ++ " times (" ++
          toFixed2 (densityOf d.content kw) ++
          "%). Aim for a keyword density between 0.5% and 2.5%."⟩] := by
  simp only [rule8]
  rw [if_pos h]

theorem rule8_eval_dec (d : ParsedContent) (kw : String)
    (h1 : ¬ densityOf d.content kw < 0.5) (h2 : densityOf d.content kw > 2.5) :
    rule8 d kw =
      [⟨"Decrease keyword density",
        "Your focus keyword \"" ++ kw ++ "\" appears " ++
          toString (jsMatchCountCI d.content kw) ++ " times (" ++
          toFixed2 (densityOf d.content kw) ++
          "%). This might be considered keyword stuffing. Aim for a keyword density between 0.5% and 2.5%."⟩] := by
  simp only [rule8]
  rw [if_neg h1, if_pos h2]

/-! ## The empty-body scenario -/

/-- C1 counterexample: on the scenario document (title "A", everything
else empty, keyword "shoes") the density rule is not skipped: the word
count of the empty body text is 1, not 0 (String.split yields one
empty token), the density is 0, and the increase-density finding
fires. -/
theorem empty_body_density_fires :
    jsWordCount "" = 1 ∧
    hasFinding (generateSeoSuggestions ⟨"A", "", [], [], ""⟩ "shoes")
      "Increase keyword density" = true := by
  refine ⟨by decide, ?_⟩
  rw [gen_fires_incDensity]
  show decide (densityOf "" "shoes" < 0.5) = true
  have h1 : jsMatchCountCI "" "shoes" = 0 := by decide
  have h2 : jsWordCount "" = 1 := by decide
  have h : densityOf "" "shoes" = 0 := by
    unfold densityOf; rw [h1, h2]; norm_num
  rw [h]
  simp only [decide_eq_true_eq]
  norm_num

/-- C1 amended: the scenario document produces exactly the eight
findings of rules 1, 2, 3, 4, 5 (zero-count branch), 6, 7 and 8
(increase branch, 0 occurrences at density 0.00%): the word count of
the empty body is 1, not 0, so the density rule fires rather than
being skipped. -/
theorem empty_body_scenario_findings :
    generateSeoSuggestions ⟨"A", "", [], [], ""⟩ "shoes" =
      [⟨"Optimize title length",
        "Aim for a title length between 30-60 characters. Current length: 1"⟩,
       ⟨"Include focus keyword in title",
        "Ensure your focus keyword \"shoes\" is present in the page title for better SEO."⟩,
       ⟨"Optimize meta description length",
        "Aim for a meta description length between 120-160 characters. Current length: 0"⟩,
       ⟨"Include focus keyword in meta description",
        "Include your focus keyword \"shoes\" in the meta description to improve relevance."⟩,
       ⟨"Add an H1 tag",
        "Every page should have a unique H1 tag that accurately describes the page content."⟩,
       ⟨"Add more internal or external links",
        "Including relevant links helps search engines understand your content and improves user experience."⟩,
       ⟨"Increase content length",
        "Pages with more content tend to rank better. Aim for at least 300 words of unique, valuable content."⟩,
       ⟨"Increase keyword density",
        "Your focus keyword \"shoes\" appears 0 times (0.00%). Aim for a keyword density between 0.5% and 2.5%."⟩] := by
  have h1 : jsMatchCountCI "" "shoes" = 0 := by decide
  have h2 : jsWordCount "" = 1 := by decide
  have hd : densityOf "" "shoes" = 0 := by
    unfold densityOf; rw [h1, h2]; norm_num
  have hlt : densityOf (ParsedContent.mk "A" "" [] [] "").content "shoes" < 0.5 := by
    show densityOf "" "shoes" < 0.5
    rw [hd]; norm_num
  have hfix : toFixed2 (densityOf "" "shoes") = "0.00" := by
    rw [hd]; unfold toFixed2; norm_num [Rat.mul_def]; decide
  have h8 := rule8_eval_inc ⟨"A", "", [], [], ""⟩ "shoes" hlt
  unfold generateSeoSuggestions
  rw [h8,
    show jsMatchCountCI (ParsedContent.mk "A" "" [] [] "").content "shoes" = 0 from h1,
    show toFixed2 (densityOf (ParsedContent.mk "A" "" [] [] "").content "shoes") = "0.00" from hfix]
  decide

/-! ## The repeated-keyword scenario -/

set_option maxRecDepth 65536

/-- C3 counterexample: on body text "shoes " repeated 50 times with
keyword "shoes" the computed density is 5000/51, about 98.04%, not
100%: String.split on the trailing space yields a 51st, empty token,
so the code divides 50 matches by 51 words. -/
theorem repeated_keyword_density_not_100 :
    jsMatchCountCI (repeatStr "shoes " 50) "shoes" = 50 ∧
    jsWordCount (repeatStr "shoes " 50) = 51 ∧
    densityOf (repeatStr "shoes " 50) "shoes" = 5000 / 51 ∧
    densityOf (repeatStr "shoes " 50) "shoes" ≠ 100 := by
  have h1 : jsMatchCountCI (repeatStr "shoes " 50) "shoes" = 50 := by decide
  have h2 : jsWordCount (repeatStr "shoes " 50) = 51 := by decide
  have hd : densityOf (repeatStr "shoes " 50) "shoes" = 5000 / 51 := by
    unfold densityOf; rw [h1, h2]; norm_num
  exact ⟨h1, h2, hd, by rw [hd]; norm_num⟩

/-- C3 amended: with keyword "shoes" and body text "shoes " repeated
50 times the density is 5000/51 (rendered 98.04%), and the
decrease-density finding fires with "98.04%" in its message.  The
document's other fields are chosen so that no other rule fires. -/
theorem repeated_keyword_scenario :
    densityOf (repeatStr "shoes " 50) "shoes" = 5000 / 51 ∧
    generateSeoSuggestions
        ⟨repeatStr "shoes " 6, repeatStr "shoes " 25, ["shoes"], ["a", "b"],
         repeatStr "shoes " 50⟩ "shoes" =
      [⟨"Decrease keyword density",
        "Your focus keyword \"shoes\" appears 50 times (98.04%). This might be considered keyword stuffing. Aim for a keyword density between 0.5% and 2.5%."⟩] ∧
    containsSubstr
      "Your focus keyword \"shoes\" appears 50 times (98.04%). This might be considered keyword stuffing. Aim for a keyword density between 0.5% and 2.5%."
      "98.04%" = true := by
  have h1 : jsMatchCountCI (repeatStr "shoes " 50) "shoes" = 50 := by decide
  have h2 : jsWordCount (repeatStr "shoes " 50) = 51 := by decide
  have hd : densityOf (repeatStr "shoes " 50) "shoes" = 5000 / 51 := by
    unfold densityOf; rw [h1, h2]; norm_num
  have hnlt : ¬ densityOf (ParsedContent.mk (repeatStr "shoes " 6) (repeatStr "shoes " 25)
      ["shoes"] ["a", "b"] (repeatStr "shoes " 50)).content "shoes" < 0.5 := by
    show ¬ densityOf (repeatStr "shoes " 50) "shoes" < 0.5
    rw [hd]; norm_num
  have hgt : densityOf (ParsedContent.mk (repeatStr "shoes " 6) (repeatStr "shoes " 25)
      ["shoes"] ["a", "b"] (repeatStr "shoes " 50)).content "shoes" > 2.5 := by
    show densityOf (repeatStr "shoes " 50) "shoes" > 2.5
    rw [hd]; norm_num
  have hfix : toFixed2 (densityOf (repeatStr "shoes " 50) "shoes") = "98.04" := by
    rw [hd]; unfold toFixed2; norm_num [Rat.mul_def]; decide
  have h8 := rule8_eval_dec
    ⟨repeatStr "shoes " 6, repeatStr "shoes " 25, ["shoes"], ["a", "b"], repeatStr "shoes " 50⟩
    "shoes" hnlt hgt
  refine ⟨hd, ?_, by decide⟩
  unfold generateSeoSuggestions
  rw [h8,
    show jsMatchCountCI (ParsedContent.mk (repeatStr "shoes " 6) (repeatStr "shoes " 25)
        ["shoes"] ["a", "b"] (repeatStr "shoes " 50)).content "shoes" = 50 from h1,
    show toFixed2 (densityOf (ParsedContent.mk (repeatStr "shoes " 6) (repeatStr "shoes " 25)
        ["shoes"] ["a", "b"] (repeatStr "shoes " 50)).content "shoes") = "98.04" from hfix]
  decide

/-! ## Proxy status codes -/

/-- C8 counterexample: a url that parses but has a scheme other than
http or https is answered with status 500, not 400: the thrown message
"Only HTTP and HTTPS protocols are supported" matches neither of the
two substrings the catch block maps to 400. -/
theorem proxy_scheme_rejection_is_500 :
    proxyHandlerStatus (UrlParam.parsed "ftp:") Upstream.noResponse ≠ 400 ∧
    proxyHandlerStatus (UrlParam.parsed "ftp:") Upstream.noResponse = 500 := by
  refine ⟨?_, ?_⟩ <;> decide

/-- C8 amended: the proxy answers 400 when the url parameter is
missing or unparseable, 500 (not 400) when the url parses to a scheme
other than http or https, and 504 when no response is received from
the upstream (timeout or connection failure). -/
theorem proxy_status_codes (up : Upstream) (protocol : String)
    (h1 : protocol ≠ "http:") (h2 : protocol ≠ "https:") :
    proxyHandlerStatus UrlParam.missing up = 400 ∧
    proxyHandlerStatus UrlParam.unparseable up = 400 ∧
    proxyHandlerStatus (UrlParam.parsed protocol) up = 500 ∧
    proxyHandlerStatus (UrlParam.parsed "http:") Upstream.noResponse = 504 ∧
    proxyHandlerStatus (UrlParam.parsed "https:") Upstream.noResponse = 504 := by
  refine ⟨rfl, rfl, ?_, by decide, by decide⟩
  simp only [proxyHandlerStatus]
  rw [if_pos ⟨h1, h2⟩]
  decide

/-- C8 witness: the amended proxy statuses at the concrete scheme
"ftp:" with an unresponsive upstream. -/
theorem proxy_status_codes_witness :
    proxyHandlerStatus UrlParam.missing Upstream.noResponse = 400 ∧
    proxyHandlerStatus UrlParam.unparseable Upstream.noResponse = 400 ∧
    proxyHandlerStatus (UrlParam.parsed "ftp:") Upstream.noResponse = 500 ∧
    proxyHandlerStatus (UrlParam.parsed "http:") Upstream.noResponse = 504 ∧
    proxyHandlerStatus (UrlParam.parsed "https:") Upstream.noResponse = 504 :=
  proxy_status_codes Upstream.noResponse "ftp:" (by decide) (by decide)
